import Mathlib

/-!
Shallow embedding of the `asynctest` repository's HTTP request relay
(`src/asynctest/useapi.py`) and of the mock item server's `read_item`
handler (`src/asynctest/mock_api_server.py`), together with proofs of the
spec's claims about them.

Modelling conventions:
* Python dict payloads (`Dict[str, Any]`) are association lists of JSON
  values; JSON documents are the inductive `Json`.
* The outbound network is an oracle `OutboundCall → Except PyExc
  UpstreamResponse`: the awaited `session.get`/`session.post` either yields
  an upstream response or raises one of the exception classes that
  `use_api`'s `try` block distinguishes.
* `use_api` returns both the Python function's return value (`Option
  Envelope`; `none` models Python's implicit `return None` on the
  unreachable non-GET/non-POST branch) and the list of outbound HTTP calls
  it performed, so that short-circuit properties ("no network activity")
  are statable.
-/

namespace Asynctest

/-- JSON values, as produced by `json.loads` on a response body.
Numbers are modelled as integers, which suffices for every claim here. -/
inductive Json where
  | null : Json
  | bool (b : Bool) : Json
  | num (n : Int) : Json
  | str (s : String) : Json
  | arr (elems : List Json) : Json
  | obj (fields : List (String × Json)) : Json

/-- A Python `Dict[str, Any]` holding JSON-encodable values, as used for the
`payload` field of `APIRequest`. -/
abbrev JsonObj := List (String × Json)

/-- `APIRequest` (useapi.py, lines 38-47): pydantic model with fields
`host: str`, `port: int`, `route: str`, `method: str` (pattern-constrained),
`payload: Optional[Dict[str, Any]] = None`. `port` is a plain `int` — the
model declares no range constraint on it. Python ints are unbounded, hence
`Int`. -/
structure APIRequest where
  host : String
  port : Int
  route : String
  method : String
  payload : Option JsonObj

/-- Pydantic validation of an `APIRequest` candidate whose fields already
have the right primitive types. The only constraint beyond typing is
`method: str = Field(..., pattern="^(GET|POST)$")` (useapi.py, line 46):
since the regex is anchored at both ends, it accepts exactly the strings
"GET" and "POST". No other field carries a constraint — in particular
`port` is not range-checked. -/
def APIRequest.valid (r : APIRequest) : Bool :=
  r.method == "GET" || r.method == "POST"

/-- The `content` field of the returned envelope: parsed JSON data or a raw
text body / error message string. -/
inductive Content where
  | json (v : Json) : Content
  | text (s : String) : Content

/-- The `{"status": ..., "content": ...}` dictionary that `use_api` and
`handle_response` return. -/
structure Envelope where
  status : Nat
  content : Content

/-- An upstream HTTP response as seen by `handle_response` through aiohttp's
`ClientResponse`: its status code, its mimetype (`Content-Type` header with
parameters stripped, as aiohttp's `response.content_type` reports it), its
body as text (`await response.text()`), and the result of JSON-parsing that
body. `body_json` is carried as a field rather than recomputed because this
embedding does not re-implement the JSON grammar; the intended reading is
`body_json = some v` exactly when `body_text` is a valid JSON document
denoting `v`, and `body_json = none` when `json.loads(body_text)` would
raise `JSONDecodeError`. -/
structure UpstreamResponse where
  status : Nat
  content_type : String
  body_text : String
  body_json : Option Json

/-- Boolean prefix test on character lists, by structural recursion (so that
concrete instances reduce inside the kernel). -/
def charsPrefix : List Char → List Char → Bool
  | [], _ => true
  | _ :: _, [] => false
  | c :: cs, d :: ds => c == d && charsPrefix cs ds

/-- Boolean infix (substring) test on character lists. -/
def charsInfix (p : List Char) : List Char → Bool
  | [] => charsPrefix p []
  | c :: cs => charsPrefix p (c :: cs) || charsInfix p cs

/-- aiohttp's check `is_expected_content_type(ctype, "application/json")`,
which `ClientResponse.json()` performs before parsing: the mimetype must
match the pattern `application/(word+)?json` at its start (aiohttp's
`json_re`). `application/json` and suffix types such as
`application/problem+json` pass; `text/plain`, `text/html` etc. fail. -/
def is_json_content_type (ct : String) : Bool :=
  charsPrefix "application/json".data ct.data ||
    (charsPrefix "application/".data ct.data && charsInfix "+json".data ct.data)

/-- The exception classes distinguished by `use_api`'s `try/except` chain
(useapi.py, lines 90-104), plus `ContentTypeError`, which
`ClientResponse.json()` raises on a non-JSON mimetype. Each constructor
stands for the most specific `except` clause that catches it, following
Python's class hierarchy:
* `aiohttp.ClientConnectorError` is a subclass of `aiohttp.ClientError`,
  and its `except` clause comes first, so it is caught as 503;
* `aiohttp.ContentTypeError` derives from `ClientResponseError`, hence from
  `ClientError` — and crucially NOT from `ValueError`, so
  `handle_response`'s `except ValueError` does not catch it;
* `asyncio.TimeoutError` is caught by the first clause. -/
inductive PyExc where
  | timeoutError : PyExc
  | clientConnectorError (detail : String) : PyExc
  | contentTypeError (detail : String) : PyExc
  | otherClientError (detail : String) : PyExc
  | valueError (detail : String) : PyExc
  | ioError (detail : String) : PyExc

/-- The `str(exc)` text of the `ContentTypeError` that
`ClientResponse.json()` raises on a mismatched mimetype. Only its exact
wording is abstracted here (aiohttp renders status, message and URL); no
claim depends on the wording, and the message core is aiohttp's
"Attempt to decode JSON with unexpected mimetype: ...". -/
def content_type_error_str (r : UpstreamResponse) : String :=
  "Attempt to decode JSON with unexpected mimetype: " ++ r.content_type

/-- `handle_response` (useapi.py, lines 107-135): read
`status = response.status`; try `content = await response.json()`, and on
`ValueError` fall back to `content = await response.text()`.
aiohttp's `response.json()` first checks the mimetype and raises
`ContentTypeError` if it is not a JSON type — that exception is a
`ClientError`, not a `ValueError`, so it escapes this function (`.error`).
When the mimetype is a JSON type, `json.loads` either succeeds (parsed
value) or raises `JSONDecodeError ⊂ ValueError`, which is caught and the
raw text returned. -/
def handle_response (r : UpstreamResponse) : Except PyExc Envelope :=
  if is_json_content_type r.content_type then
    match r.body_json with
    | some v => Except.ok ⟨r.status, Content.json v⟩
    | none => Except.ok ⟨r.status, Content.text r.body_text⟩
  else
    Except.error (PyExc.contentTypeError (content_type_error_str r))

/-- The `except` chain of `use_api` (useapi.py, lines 90-104), applied to
whichever exception escapes the `try` block. Dispatch follows the source
order (`asyncio.TimeoutError`, `ClientConnectorError`, `ClientError`,
`ValueError`, `IOError`) with Python's first-matching-clause rule;
`contentTypeError` and `otherClientError` both land in the
`except ClientError` clause. -/
def except_clause : PyExc → Envelope
  | PyExc.timeoutError => ⟨504, Content.text "Request timed out"⟩
  | PyExc.clientConnectorError d => ⟨503, Content.text ("Service unavailable: " ++ d)⟩
  | PyExc.contentTypeError d => ⟨500, Content.text ("Client error: " ++ d)⟩
  | PyExc.otherClientError d => ⟨500, Content.text ("Client error: " ++ d)⟩
  | PyExc.valueError d => ⟨400, Content.text ("Invalid input: " ++ d)⟩
  | PyExc.ioError d => ⟨500, Content.text ("I/O error: " ++ d)⟩

/-- One outbound HTTP request issued by the relay: target URL, HTTP method,
and the JSON body (`none` for GET; the serialized payload for POST, via
`session.post(url, json=request.payload)`). -/
structure OutboundCall where
  url : String
  method : String
  json_body : Option JsonObj

/-- The target URL, built exactly as in useapi.py, line 75:
`f"http://{request.host}:{request.port}{request.route}"`. -/
def request_url (r : APIRequest) : String :=
  "http://" ++ r.host ++ ":" ++ toString r.port ++ r.route

/-- The network oracle: what awaiting the outbound call yields for a given
outbound request — an upstream response, or one of the exceptions the
`try` block classifies. -/
abbrev Upstream := OutboundCall → Except PyExc UpstreamResponse

/-- Body of `use_api`'s `try` block after an outbound call has been decided:
await the call, feed a response through `handle_response`, and route any
escaping exception (transport failure, or `handle_response`'s
`ContentTypeError`) through the `except` chain. -/
def relay_attempt (u : Upstream) (call : OutboundCall) : Envelope :=
  match u call with
  | Except.ok r =>
    match handle_response r with
    | Except.ok e => e
    | Except.error exc => except_clause exc
  | Except.error exc => except_clause exc

/-- `use_api` (useapi.py, lines 50-104), relative to a network oracle `u`.
Returns the Python return value together with the list of outbound calls
performed. Branches, in source order:
* `request.method == "GET"`: issue a GET with no body;
* `request.method == "POST"` with `request.payload is None`: return the 400
  envelope immediately — no outbound call;
* `request.method == "POST"` with a payload: issue a POST carrying the
  payload as JSON body;
* any other method falls off the `if/elif` and returns `None` (unreachable
  behind pydantic validation). -/
def use_api (u : Upstream) (request : APIRequest) :
    Option Envelope × List OutboundCall :=
  if request.method == "GET" then
    let call : OutboundCall := ⟨request_url request, "GET", none⟩
    (some (relay_attempt u call), [call])
  else if request.method == "POST" then
    match request.payload with
    | none =>
      (some ⟨400, Content.text "Payload is required for POST requests"⟩, [])
    | some p =>
      let call : OutboundCall := ⟨request_url request, "POST", some p⟩
      (some (relay_attempt u call), [call])
  else
    (none, [])

/-- The single outbound call a GET descriptor gives rise to. -/
def get_call (r : APIRequest) : OutboundCall :=
  ⟨request_url r, "GET", none⟩

/-- An item record as returned by the mock server's `read_item`
(mock_api_server.py, lines 60-64). The `value` field is
`random.uniform(1, 100)`; the draw is supplied from outside as a value of
an arbitrary type `V`, since no claim constrains it. -/
structure ItemRecord (V : Type) where
  item_id : Int
  name : String
  value : V

/-- Outcome of the mock server's `read_item`: either an `HTTPException`
with a status code and detail, or the item dictionary. -/
inductive ReadItemResult (V : Type) where
  | httpException (status_code : Nat) (detail : String) : ReadItemResult V
  | ok (record : ItemRecord V) : ReadItemResult V

/-- `read_item` (mock_api_server.py, lines 47-64): raise
`HTTPException(404, "Item not found")` when `item_id < 0 or item_id > 100`,
else return `{"item_id": item_id, "name": f"Item {item_id}", "value":
random.uniform(1, 100)}`. The random draw is the parameter `uniform_draw`. -/
def read_item {V : Type} (uniform_draw : V) (item_id : Int) : ReadItemResult V :=
  if item_id < 0 ∨ 100 < item_id then
    ReadItemResult.httpException 404 "Item not found"
  else
    ReadItemResult.ok ⟨item_id, "Item " ++ toString item_id, uniform_draw⟩

/-- A network oracle on which every outbound call fails with a timeout;
used to instantiate theorems whose conclusion does not depend on the
upstream behaviour. -/
def no_upstream : Upstream := fun _ => Except.error PyExc.timeoutError

/-- A network oracle on which every outbound call yields a JSON 200
response with body "123". -/
def json_upstream : Upstream :=
  fun _ => Except.ok ⟨200, "application/json", "123", some (Json.num 123)⟩

/-- The upstream response exhibiting the C1 divergence: HTTP 200 with a
non-JSON mimetype and the plain body "hello". -/
def c1_failing_response : UpstreamResponse := ⟨200, "text/html", "hello", none⟩

/-- The relayed GET descriptor used for the C1 failing input. -/
def c1_request : APIRequest := ⟨"127.0.0.1", 8001, "/page", "GET", none⟩

/-- A POST descriptor with absent payload (C2 witness input). -/
def c2_request : APIRequest := ⟨"localhost", 8001, "/api/item", "POST", none⟩

/-- A well-formed GET descriptor (C3 witness input). -/
def c3_request : APIRequest := ⟨"localhost", 8001, "/api/item/5", "GET", none⟩

/-- A well-formed GET descriptor (C4 witness input). -/
def c4_request : APIRequest := ⟨"localhost", 9, "/x", "GET", none⟩

/-- A GET descriptor whose port, 0, lies outside the range 1-65535
(C5 counterexample input). -/
def c5_request : APIRequest := ⟨"localhost", 0, "/route", "GET", none⟩

/-- A well-formed GET descriptor (C6 witness input). -/
def c6_request : APIRequest := ⟨"localhost", 8001, "/api/error", "GET", none⟩

/-- A sample payload dictionary (C6 witness input). -/
def c6_payload : JsonObj := [("k", Json.num 1)]

/-- A well-formed GET descriptor (C8 witness input). -/
def c8_request : APIRequest := ⟨"localhost", 8001, "/api/item/5", "GET", none⟩

/-- A second network oracle that agrees with `no_upstream` on every GET
call but differs elsewhere (C8 witness input). -/
def c8_upstream_alt : Upstream :=
  fun c =>
    if c.method == "GET" then Except.error PyExc.timeoutError
    else Except.ok ⟨201, "application/json", "1", some (Json.num 1)⟩

/-- A well-formed GET descriptor (C9 witness input). -/
def c9_request : APIRequest := ⟨"localhost", 8001, "/n", "GET", none⟩

/-- The pass-through envelope produced on `c9_request` against
`json_upstream` (C9 witness input). -/
def c9_envelope : Envelope := ⟨200, Content.json (Json.num 123)⟩

/-! ## Helper lemmas -/

/-- Every envelope fabricated by the `except` chain carries one of the
synthetic statuses 400, 500, 503, 504. -/
theorem except_clause_status_mem (exc : PyExc) :
    (except_clause exc).status ∈ [400, 500, 503, 504] := by
  cases exc <;> simp [except_clause]

/-- When `handle_response` returns normally, the envelope's status is the
upstream response's status. -/
theorem handle_response_ok_status (r : UpstreamResponse) (e : Envelope)
    (h : handle_response r = Except.ok e) : e.status = r.status := by
  unfold handle_response at h
  by_cases hct : is_json_content_type r.content_type = true
  · rw [if_pos hct] at h
    cases hb : r.body_json with
    | some v =>
      rw [hb] at h
      cases Except.ok.inj h
      rfl
    | none =>
      rw [hb] at h
      cases Except.ok.inj h
      rfl
  · rw [if_neg hct] at h
    exact Except.noConfusion h

/-- `relay_attempt` is determined by the oracle's answer on the one call
it makes. -/
theorem relay_attempt_eq_of_eq (u₁ u₂ : Upstream) (c : OutboundCall)
    (h : u₁ c = u₂ c) : relay_attempt u₁ c = relay_attempt u₂ c := by
  unfold relay_attempt
  rw [h]

/-- When the awaited call raises, `relay_attempt` is the `except` chain's
envelope for the exception. -/
theorem relay_attempt_of_error (u : Upstream) (c : OutboundCall) (exc : PyExc)
    (h : u c = Except.error exc) : relay_attempt u c = except_clause exc := by
  unfold relay_attempt
  rw [h]

/-- When the awaited call yields a response, `relay_attempt` is
`handle_response` of it, with an escaping exception routed through the
`except` chain. -/
theorem relay_attempt_of_response (u : Upstream) (c : OutboundCall)
    (resp : UpstreamResponse) (h : u c = Except.ok resp) :
    relay_attempt u c
      = match handle_response resp with
        | Except.ok e => e
        | Except.error exc => except_clause exc := by
  unfold relay_attempt
  rw [h]

/-! ## Claims -/

/-- C1 (code bug): the claim says every upstream response passes through
with its real status and, for a non-JSON body, the raw text as content —
"no JSON-parse fault reaches the caller". On the failing input — upstream
answers 200 with mimetype `text/html` and body "hello" — the code instead
returns the synthetic envelope `{status: 500, content: "Client error:
..."}`: aiohttp's `response.json()` raises `ContentTypeError`, which is a
`ClientError` and not a `ValueError`, so `handle_response`'s
`except ValueError` misses it and `use_api`'s `except ClientError` turns it
into a 500. This also contradicts `handle_response`'s own docstring ("If
the response is not valid JSON, the function ... returns the raw text
content"). -/
theorem c1_nonjson_mimetype_becomes_client_error :
    (use_api (fun _ => Except.ok c1_failing_response) c1_request).1
      = some ⟨500, Content.text
          ("Client error: " ++ content_type_error_str c1_failing_response)⟩
    ∧ c1_failing_response.status = 200
    ∧ c1_failing_response.body_text = "hello" :=
  ⟨rfl, rfl, rfl⟩

/-- C2: a descriptor with method POST and absent payload yields the
envelope `{status: 400, content: "Payload is required for POST requests"}`
and no outbound call is performed, for every network oracle. -/
theorem c2_post_missing_payload_short_circuits (u : Upstream) (r : APIRequest)
    (hm : r.method = "POST") (hp : r.payload = none) :
    use_api u r =
      (some ⟨400, Content.text "Payload is required for POST requests"⟩, []) := by
  unfold use_api
  rw [hm, hp]
  rfl

/-- Witness for C2 at the concrete descriptor `c2_request`. -/
theorem c2_post_missing_payload_short_circuits_witness :
    use_api no_upstream c2_request =
      (some ⟨400, Content.text "Payload is required for POST requests"⟩, []) :=
  c2_post_missing_payload_short_circuits no_upstream c2_request rfl rfl

/-- C3: every descriptor accepted by pydantic validation makes `use_api`
return a `{status, content}` envelope (never `None`, and — the oracle
ranging over every exception the `try` block classifies — never an
uncaught fault), for every network oracle. -/
theorem c3_valid_request_always_returns_envelope (u : Upstream) (r : APIRequest)
    (hv : r.valid = true) :
    ∃ e : Envelope, (use_api u r).1 = some e := by
  unfold APIRequest.valid at hv
  rw [Bool.or_eq_true, beq_iff_eq, beq_iff_eq] at hv
  unfold use_api
  rcases hv with h | h
  · rw [h]
    exact ⟨_, rfl⟩
  · rw [h]
    cases hp : r.payload with
    | none => exact ⟨_, rfl⟩
    | some p => exact ⟨_, rfl⟩

/-- Witness for C3 at the concrete descriptor `c3_request`. -/
theorem c3_valid_request_always_returns_envelope_witness :
    ∃ e : Envelope, (use_api no_upstream c3_request).1 = some e :=
  c3_valid_request_always_returns_envelope no_upstream c3_request rfl

/-- C4: when the outbound call itself raises, the relay returns exactly
the taxonomy envelope for the classified exception: timeout ↦ 504 "Request
timed out"; connection failure ↦ 503 "Service unavailable: {detail}"; other
client fault ↦ 500 "Client error: {detail}"; `ValueError` ↦ 400 "Invalid
input: {detail}"; `IOError` ↦ 500 "I/O error: {detail}". -/
theorem c4_outbound_fault_taxonomy (r : APIRequest) (exc : PyExc)
    (hm : r.method = "GET" ∨ (r.method = "POST" ∧ r.payload ≠ none)) :
    (use_api (fun _ => Except.error exc) r).1 = some (except_clause exc)
    ∧ except_clause PyExc.timeoutError = ⟨504, Content.text "Request timed out"⟩
    ∧ (∀ d, except_clause (PyExc.clientConnectorError d)
        = ⟨503, Content.text ("Service unavailable: " ++ d)⟩)
    ∧ (∀ d, except_clause (PyExc.otherClientError d)
        = ⟨500, Content.text ("Client error: " ++ d)⟩)
    ∧ (∀ d, except_clause (PyExc.valueError d)
        = ⟨400, Content.text ("Invalid input: " ++ d)⟩)
    ∧ (∀ d, except_clause (PyExc.ioError d)
        = ⟨500, Content.text ("I/O error: " ++ d)⟩) := by
  refine ⟨?_, rfl, fun d => rfl, fun d => rfl, fun d => rfl, fun d => rfl⟩
  unfold use_api
  rcases hm with h | ⟨h, hp⟩
  · rw [h]
    rfl
  · rw [h]
    cases hq : r.payload with
    | none => exact absurd hq hp
    | some p => rfl

/-- Witness for C4: a timeout on the concrete descriptor `c4_request`
yields the 504 envelope. -/
theorem c4_outbound_fault_taxonomy_witness :
    (use_api (fun _ => Except.error PyExc.timeoutError) c4_request).1
      = some ⟨504, Content.text "Request timed out"⟩ := by
  have h := c4_outbound_fault_taxonomy c4_request PyExc.timeoutError (Or.inl rfl)
  rw [h.1, h.2.1]

/-- C5 counterexample: the descriptor `c5_request` has port 0, outside the
range 1-65535, yet validation accepts it and `use_api` performs an
outbound call to it — no port-range validation exists in the code. -/
theorem c5_port_zero_accepted_and_called :
    APIRequest.valid c5_request = true
    ∧ (use_api no_upstream c5_request).2
        = [⟨"http://localhost:0/route", "GET", none⟩] :=
  ⟨rfl, rfl⟩

/-- C5 amended: validation constrains only the method pattern — it is
entirely independent of the port value, so a descriptor with any integer
port (0, negative, or above 65535) is accepted, and for a GET descriptor
an outbound call is attempted regardless of the port. -/
theorem c5_validation_ignores_port (r : APIRequest) (p : Int) (u : Upstream) :
    APIRequest.valid { r with port := p } = APIRequest.valid r
    ∧ (r.method = "GET" → (use_api u { r with port := p }).2 ≠ []) := by
  constructor
  · rfl
  · intro h
    unfold use_api
    rw [show ({ r with port := p } : APIRequest).method = "GET" from h]
    simp

/-- Witness for C5 amended at port 99999 on `c5_request`. -/
theorem c5_validation_ignores_port_witness :
    APIRequest.valid { c5_request with port := 99999 } = APIRequest.valid c5_request
    ∧ (use_api no_upstream { c5_request with port := 99999 }).2 ≠ [] :=
  ⟨(c5_validation_ignores_port c5_request 99999 no_upstream).1,
   (c5_validation_ignores_port c5_request 99999 no_upstream).2 rfl⟩

/-- C6: for a GET descriptor the payload field is ignored — two relay
invocations whose descriptors differ only in payload produce identical
results against the same oracle, and the outbound GET call carries no
body. -/
theorem c6_get_ignores_payload (u : Upstream) (r : APIRequest)
    (p₁ p₂ : Option JsonObj) (hm : r.method = "GET") :
    use_api u { r with payload := p₁ } = use_api u { r with payload := p₂ }
    ∧ ∀ c ∈ (use_api u { r with payload := p₁ }).2, c.json_body = none := by
  have h1 : ∀ q : Option JsonObj,
      use_api u { r with payload := q }
        = (some (relay_attempt u ⟨request_url r, "GET", none⟩),
           [⟨request_url r, "GET", none⟩]) := by
    intro q
    unfold use_api
    rw [show ({ r with payload := q } : APIRequest).method = "GET" from hm]
    rfl
  constructor
  · rw [h1 p₁, h1 p₂]
  · intro c hc
    rw [h1 p₁] at hc
    rcases List.mem_singleton.mp hc with rfl
    rfl

/-- Witness for C6: on `c6_request`, payload `some c6_payload` and payload
`none` give the same relay result. -/
theorem c6_get_ignores_payload_witness :
    use_api no_upstream { c6_request with payload := some c6_payload }
      = use_api no_upstream { c6_request with payload := none } :=
  (c6_get_ignores_payload no_upstream c6_request (some c6_payload) none rfl).1

/-- C7: pydantic's anchored pattern `^(GET|POST)$` makes method matching
case-sensitive exact equality — a descriptor candidate is accepted iff its
method is exactly "GET" or exactly "POST"; in particular the lowercase
"get" is rejected at the descriptor boundary. -/
theorem c7_method_exact_case_sensitive (host route : String) (p : Int)
    (pl : Option JsonObj) (m : String) :
    (APIRequest.valid ⟨host, p, route, m, pl⟩ = true ↔ (m = "GET" ∨ m = "POST"))
    ∧ APIRequest.valid ⟨host, p, route, "get", pl⟩ = false := by
  constructor
  · unfold APIRequest.valid
    rw [Bool.or_eq_true, beq_iff_eq, beq_iff_eq]
  · rfl

/-- C8: relaying the same GET descriptor twice against an upstream whose
behaviour is fixed (the two oracles answer the one issued call alike)
yields identical results — the relay keeps no state across calls. -/
theorem c8_get_relay_deterministic (u₁ u₂ : Upstream) (r : APIRequest)
    (hm : r.method = "GET") (hfix : u₁ (get_call r) = u₂ (get_call r)) :
    use_api u₁ r = use_api u₂ r := by
  have hr : relay_attempt u₁ (get_call r) = relay_attempt u₂ (get_call r) :=
    relay_attempt_eq_of_eq u₁ u₂ (get_call r) hfix
  unfold use_api
  rw [hm]
  show (some (relay_attempt u₁ (get_call r)), [get_call r])
      = (some (relay_attempt u₂ (get_call r)), [get_call r])
  rw [hr]

/-- Witness for C8: two distinct oracles agreeing on the issued GET call
give the same result on `c8_request`. -/
theorem c8_get_relay_deterministic_witness :
    use_api no_upstream c8_request = use_api c8_upstream_alt c8_request :=
  c8_get_relay_deterministic no_upstream c8_upstream_alt c8_request rfl rfl

/-- C9: every relay-fabricated envelope has status in {400, 500, 503,
504}; hence an envelope whose status is outside that set is a genuine
upstream pass-through — one outbound call was made, the oracle answered it
with a response, the envelope is exactly `handle_response` of that
response, and its status is the upstream's real status. -/
theorem c9_non_synthetic_status_is_upstream_passthrough (u : Upstream)
    (r : APIRequest) (e : Envelope)
    (h1 : (use_api u r).1 = some e)
    (h2 : e.status ∉ [400, 500, 503, 504]) :
    ∃ (call : OutboundCall) (resp : UpstreamResponse),
      (use_api u r).2 = [call] ∧ u call = Except.ok resp
      ∧ handle_response resp = Except.ok e ∧ e.status = resp.status := by
  by_cases hg : (r.method == "GET") = true
  · have hcall : use_api u r
        = (some (relay_attempt u (get_call r)), [get_call r]) := by
      unfold use_api get_call
      rw [if_pos hg]
    rw [hcall] at h1
    have he : relay_attempt u (get_call r) = e := Option.some.inj h1
    cases hu : u (get_call r) with
    | error exc =>
      rw [relay_attempt_of_error u (get_call r) exc hu] at he
      rw [← he] at h2
      exact absurd (except_clause_status_mem exc) h2
    | ok resp =>
      rw [relay_attempt_of_response u (get_call r) resp hu] at he
      cases hh : handle_response resp with
      | error exc =>
        rw [hh] at he
        have he2 : except_clause exc = e := he
        rw [← he2] at h2
        exact absurd (except_clause_status_mem exc) h2
      | ok e' =>
        rw [hh] at he
        have he2 : e' = e := he
        refine ⟨get_call r, resp, by rw [hcall], hu, ?_, ?_⟩
        · rw [hh, he2]
        · rw [← he2]
          exact handle_response_ok_status resp e' hh
  · by_cases hp : (r.method == "POST") = true
    · cases hq : r.payload with
      | none =>
        have hcall : use_api u r
            = (some ⟨400, Content.text "Payload is required for POST requests"⟩,
               []) := by
          unfold use_api
          rw [if_neg hg, if_pos hp, hq]
        rw [hcall] at h1
        have he := Option.some.inj h1
        rw [← he] at h2
        simp at h2
      | some pl =>
        have hcall : use_api u r
            = (some (relay_attempt u ⟨request_url r, "POST", some pl⟩),
               [⟨request_url r, "POST", some pl⟩]) := by
          unfold use_api
          rw [if_neg hg, if_pos hp, hq]
        rw [hcall] at h1
        have he : relay_attempt u ⟨request_url r, "POST", some pl⟩ = e :=
          Option.some.inj h1
        cases hu : u ⟨request_url r, "POST", some pl⟩ with
        | error exc =>
          rw [relay_attempt_of_error u ⟨request_url r, "POST", some pl⟩ exc hu]
            at he
          rw [← he] at h2
          exact absurd (except_clause_status_mem exc) h2
        | ok resp =>
          rw [relay_attempt_of_response u ⟨request_url r, "POST", some pl⟩
            resp hu] at he
          cases hh : handle_response resp with
          | error exc =>
            rw [hh] at he
            have he2 : except_clause exc = e := he
            rw [← he2] at h2
            exact absurd (except_clause_status_mem exc) h2
          | ok e' =>
            rw [hh] at he
            have he2 : e' = e := he
            refine ⟨⟨request_url r, "POST", some pl⟩, resp, by rw [hcall],
              hu, ?_, ?_⟩
            · rw [hh, he2]
            · rw [← he2]
              exact handle_response_ok_status resp e' hh
    · have hcall : use_api u r = (none, []) := by
        unfold use_api
        rw [if_neg hg, if_neg hp]
      rw [hcall] at h1
      exact Option.noConfusion h1

/-- Witness for C9: a 200 JSON upstream response on `c9_request` is a
pass-through, 200 being outside the synthetic-status set. -/
theorem c9_non_synthetic_status_is_upstream_passthrough_witness :
    (use_api json_upstream c9_request).1 = some c9_envelope
    ∧ c9_envelope.status ∉ [400, 500, 503, 504]
    ∧ ∃ (call : OutboundCall) (resp : UpstreamResponse),
        (use_api json_upstream c9_request).2 = [call]
        ∧ json_upstream call = Except.ok resp
        ∧ handle_response resp = Except.ok c9_envelope
        ∧ c9_envelope.status = resp.status :=
  ⟨rfl, by decide,
   c9_non_synthetic_status_is_upstream_passthrough json_upstream c9_request
     c9_envelope rfl (by decide)⟩

/-- C10: the mock server's `read_item` raises `HTTPException(404, "Item
not found")` exactly when the requested id is negative or above 100, and
for ids in 0-100 returns the record with that id and the name
"Item {item_id}" (the value field being the random draw). -/
theorem c10_read_item_range_check {V : Type} (v : V) (item_id : Int) :
    (read_item v item_id = ReadItemResult.httpException 404 "Item not found"
      ↔ (item_id < 0 ∨ 100 < item_id))
    ∧ (0 ≤ item_id → item_id ≤ 100 →
        read_item v item_id
          = ReadItemResult.ok ⟨item_id, "Item " ++ toString item_id, v⟩) := by
  constructor
  · constructor
    · intro h
      by_contra hc
      unfold read_item at h
      rw [if_neg hc] at h
      exact ReadItemResult.noConfusion h
    · intro h
      unfold read_item
      rw [if_pos h]
  · intro h1 h2
    have hn : ¬(item_id < 0 ∨ 100 < item_id) := by
      rintro (hlt | hgt)
      · exact absurd h1 (not_le.mpr hlt)
      · exact absurd h2 (not_le.mpr hgt)
    unfold read_item
    rw [if_neg hn]

/-- Witness for C10: item id 5 with draw 7 yields the record
`{item_id: 5, name: "Item 5", value: 7}`. -/
theorem c10_read_item_range_check_witness :
    read_item (7 : Nat) 5 = ReadItemResult.ok ⟨5, "Item 5", 7⟩ := by
  rw [(c10_read_item_range_check (7 : Nat) 5).2 (by decide) (by decide)]
  rfl

end Asynctest
